import Mathlib

/-!
Shallow embedding of `src/data_entry_bot.py` (class `WindowsDataEntryBot`).

The script fetches posts from a JSON API, launches Notepad, and for each of
the first ten posts formats a text blob, types it into the editor and saves
it as `post {id}.txt`.  External effects (HTTP, the two GUI-automation
libraries, the file system) are modelled by environments that record, for
every effectful call the code makes, whether it raises and what it returns;
the control flow, defaults, string construction and counter updates are
translated from the source line by line.
-/

namespace DataEntryBot

/-- A post object from the API response.  The source accesses only the keys
`id`, `title`, `body`, `userId` via `dict.get` with defaults, so each field
is optional; `id`/`userId` are integers and `title`/`body` strings in the
API's schema. -/
structure Post where
  id : Option Int
  title : Option String
  body : Option String
  userId : Option Int
deriving DecidableEq, Repr

/-- One character step of Python's `str.title()` (ASCII fragment): a letter
is uppercased when the previous character is not a letter and lowercased
otherwise; non-letters pass through. -/
def titleCaseAux : Bool → List Char → List Char
  | _, [] => []
  | prevAlpha, c :: cs =>
    if c.isAlpha then
      (if prevAlpha then c.toLower else c.toUpper) :: titleCaseAux true cs
    else
      c :: titleCaseAux false cs

/-- Python's `str.title()` on ASCII strings, as applied at
`src/data_entry_bot.py:203` to the fetched title. -/
def pyTitle (s : String) : String := ⟨titleCaseAux false s.data⟩

/-- The `'=' * 60` separator line of the template. -/
def eqLine : String := String.mk (List.replicate 60 '=')

/-- `format_blog_post` (`src/data_entry_bot.py:197-223`): the defaults for
missing keys and the f-string template, translated literally.  Integers are
rendered by `toString`, matching Python's f-string interpolation of ints. -/
def format_blog_post (post : Post) : String :=
  let post_id := match post.id with
    | some i => toString i
    | none => "Unknown"
  let title := pyTitle (post.title.getD "Untitled")
  let body := post.body.getD "No content available"
  let user_id := match post.userId with
    | some i => toString i
    | none => "Unknown"
  "BLOG POST #" ++ post_id ++ "\n" ++ eqLine ++ "\n\nTITLE: " ++ title
    ++ "\n\nAUTHOR: User #" ++ user_id ++ "\n\nBLOG CONTENT:\n" ++ body
    ++ "\n\n" ++ eqLine
    ++ "\nSource: JSONPlaceholder API - https://jsonplaceholder.typicode.com/posts/"
    ++ post_id ++ "\nGenerated by Automated Data Entry Bot\n" ++ eqLine ++ "\n"

/-- The spec-side template ("the fixed textual template wrapping the id, the
title, the author id and the body"), as a function of the four rendered
slots.  Used to compare `format_blog_post` against the spec's description. -/
def renderTemplate (idStr titleStr authorStr bodyStr : String) : String :=
  "BLOG POST #" ++ idStr ++ "\n" ++ eqLine ++ "\n\nTITLE: " ++ titleStr
    ++ "\n\nAUTHOR: User #" ++ authorStr ++ "\n\nBLOG CONTENT:\n" ++ bodyStr
    ++ "\n\n" ++ eqLine
    ++ "\nSource: JSONPlaceholder API - https://jsonplaceholder.typicode.com/posts/"
    ++ idStr ++ "\nGenerated by Automated Data Entry Bot\n" ++ eqLine ++ "\n"

/-- Filename construction of `process_single_post`
(`src/data_entry_bot.py:355-356`): `post.get('id', post_number)` then
`f"post {post_id}.txt"`. -/
def post_filename (post : Post) (post_number : Nat) : String :=
  let post_id := match post.id with
    | some i => toString i
    | none => toString post_number
  "post " ++ post_id ++ ".txt"

/-! ### Launch and typing fallback chains -/

/-- Outcome of the one effectful call inside `launch_notepad_botcity`:
`self.execute("notepad.exe")` either raises or returns a success flag. -/
inductive ExecOutcome where
  | raises : ExecOutcome
  | returns : Bool → ExecOutcome
deriving DecidableEq, Repr

/-- `launch_notepad_botcity` (`src/data_entry_bot.py:128-151`): returns the
flag from `self.execute` and `False` when the call raises (the body's
`except Exception` returns `False`). -/
def launch_notepad_botcity : ExecOutcome → Bool
  | .raises => false
  | .returns b => b

/-- `launch_notepad_pyautogui` (`src/data_entry_bot.py:153-177`): the
hotkey/typewrite sequence either completes (return `True`) or raises and
the handler returns `False`.  `raises` records whether some step raised. -/
def launch_notepad_pyautogui (raises : Bool) : Bool := !raises

/-- `launch_notepad` (`src/data_entry_bot.py:179-195`): BotCity first, then
the PyAutoGUI fallback.  Returns the combined success flag and whether the
fallback was invoked. -/
def launch_notepad (primary : ExecOutcome) (fallbackRaises : Bool) : Bool × Bool :=
  if launch_notepad_botcity primary then (true, false)
  else (launch_notepad_pyautogui fallbackRaises, true)

/-- `type_text_botcity` (`src/data_entry_bot.py:225-236`): `self.type_text`
either completes (return `True`) or raises (handler returns `False`). -/
def type_text_botcity (raises : Bool) : Bool := !raises

/-- `type_text_pyautogui` (`src/data_entry_bot.py:238-256`): the clear-and-
typewrite sequence either completes or raises (handler returns `False`). -/
def type_text_pyautogui (raises : Bool) : Bool := !raises

/-- `type_text_hybrid` (`src/data_entry_bot.py:258-274`): BotCity first,
then the PyAutoGUI fallback.  Returns the combined success flag and whether
the fallback was invoked. -/
def type_text_hybrid (primaryRaises fallbackRaises : Bool) : Bool × Bool :=
  if type_text_botcity primaryRaises then (true, false)
  else (type_text_pyautogui fallbackRaises, true)

/-! ### Saving -/

/-- Environment of one `save_document` call: whether each effectful step of
the simulated save sequence raises, and whether the target file exists in
the project directory after the sequence. -/
structure SaveEnv where
  /-- `pyautogui.hotkey('ctrl', 's')` raises. -/
  ctrlSRaises : Bool
  /-- `pyautogui.typewrite(file_path, ...)` raises. -/
  typePathRaises : Bool
  /-- the first `pyautogui.press('enter')` raises. -/
  enterRaises : Bool
  /-- the overwrite-confirmation `pyautogui.press('enter')` raises
  (this press sits inside its own `try/except: pass`). -/
  confirmEnterRaises : Bool
  /-- `(self.project_dir / filename).exists()` after the sequence. -/
  fileExistsAfter : Bool
deriving DecidableEq, Repr

/-- `save_document` (`src/data_entry_bot.py:276-315`): any raise in the
hotkey / typewrite / enter steps is caught by the outer handler and yields
`False`; the overwrite-confirmation press is wrapped in an inner
`try/except: pass`, so its failure is swallowed; otherwise the result is
the existence check on the target file. -/
def save_document (env : SaveEnv) : Bool :=
  if env.ctrlSRaises then false
  else if env.typePathRaises then false
  else if env.enterRaises then false
  else env.fileExistsAfter

/-! ### Per-item processing and the main loop -/

/-- Events of a run, used to state sequencing properties.  Item events
carry the 1-based loop position; `save` also carries the filename typed
into the Save-As dialog.  `fetch` is the API call, `launch` a successful
application launch, `closeApp` the `close_notepad` call. -/
inductive Event where
  | fetch : Event
  | launch : Event
  | format : Nat → Event
  | typeText : Nat → Event
  | save : Nat → String → Event
  | newDocument : Nat → Event
  | closeApp : Event
deriving DecidableEq, Repr

/-- Environment of one loop iteration: outcomes of the effectful calls made
while processing that post, plus whether the operator raises a
KeyboardInterrupt during the iteration (modelled at iteration granularity;
KeyboardInterrupt is not caught by `process_single_post`'s
`except Exception` and propagates to the loop handler). -/
structure ItemEnv where
  typeBotcityRaises : Bool
  typePyautoguiRaises : Bool
  save : SaveEnv
  interrupt : Bool
deriving DecidableEq, Repr

/-- `process_single_post` (`src/data_entry_bot.py:349-383`): build the
filename from the post id (loop position when absent), format, type via
the hybrid chain, save, and open a new document for the next post except
after post number 10.  Returns the trace of events, the success flag, and
the filename when the save reported success. -/
def process_single_post (env : ItemEnv) (post : Post) (post_number : Nat) :
    List Event × Bool × Option String :=
  let filename := post_filename post post_number
  if (type_text_hybrid env.typeBotcityRaises env.typePyautoguiRaises).1 then
    if save_document env.save then
      if post_number < 10 then
        ([.format post_number, .typeText post_number,
          .save post_number filename, .newDocument post_number],
         true, some filename)
      else
        ([.format post_number, .typeText post_number,
          .save post_number filename],
         true, some filename)
    else
      ([.format post_number, .typeText post_number,
        .save post_number filename],
       false, none)
  else
    ([.format post_number, .typeText post_number], false, none)

/-- Accumulated outcome of the per-post loop. -/
structure LoopResult where
  trace : List Event
  successfulPosts : Nat
  failedPosts : Nat
  savedFiles : List String
deriving DecidableEq, Repr

/-- The `for i, post in enumerate(self.posts_data, 1)` loop of
`run_automation` (`src/data_entry_bot.py:423-446`), processing the posts
from position `i` on: a KeyboardInterrupt breaks out of the loop, a `False`
from `process_single_post` increments `failed_posts`, a `True` increments
`successful_posts`, and the loop continues with the next item. -/
def run_loop (items : Nat → ItemEnv) : List Post → Nat → LoopResult
  | [], _ => ⟨[], 0, 0, []⟩
  | p :: ps, i =>
    if (items i).interrupt then ⟨[], 0, 0, []⟩
    else
      let step := process_single_post (items i) p i
      let rest := run_loop items ps (i + 1)
      if step.2.1 then
        ⟨step.1 ++ rest.trace, rest.successfulPosts + 1, rest.failedPosts,
         (match step.2.2 with
          | some fn => fn :: rest.savedFiles
          | none => rest.savedFiles)⟩
      else
        ⟨step.1 ++ rest.trace, rest.successfulPosts, rest.failedPosts + 1,
         (match step.2.2 with
          | some fn => fn :: rest.savedFiles
          | none => rest.savedFiles)⟩

/-! ### Fetch and the whole run -/

/-- The exception classes caught (logged and re-raised) by
`fetch_posts_data`'s handlers: `requests.ConnectionError`,
`requests.Timeout`, `requests.RequestException` (HTTP error status via
`raise_for_status`), `json.JSONDecodeError`. -/
inductive FetchError where
  | connectionError : FetchError
  | timeoutError : FetchError
  | requestError : FetchError
  | jsonError : FetchError
deriving DecidableEq, Repr

/-- Outcome of the HTTP GET plus JSON decode: the decoded array of posts,
or one of the failure classes. -/
inductive FetchOutcome where
  | ok : List Post → FetchOutcome
  | connectionError : FetchOutcome
  | timeoutError : FetchOutcome
  | requestError : FetchOutcome
  | jsonError : FetchOutcome
deriving DecidableEq, Repr

/-- `fetch_posts_data` (`src/data_entry_bot.py:94-126`): on success return
`posts[:10]`; every failure class is logged and re-raised unchanged. -/
def fetch_posts_data : FetchOutcome → Except FetchError (List Post)
  | .ok posts => .ok (posts.take 10)
  | .connectionError => .error .connectionError
  | .timeoutError => .error .timeoutError
  | .requestError => .error .requestError
  | .jsonError => .error .jsonError

/-- Exceptions that can propagate out of `run_automation`. -/
inductive RunError where
  | fetchFailed : FetchError → RunError
  | launchFailed : RunError
deriving DecidableEq, Repr

/-- Environment of a whole run: the fetch outcome, the outcomes of the two
launch methods, and the per-iteration environments (indexed by the 1-based
loop position). -/
structure RunEnv where
  fetch : FetchOutcome
  launchPrimary : ExecOutcome
  launchFallbackRaises : Bool
  items : Nat → ItemEnv

/-- Result of a run: the event trace, whether an exception propagated out
of `run_automation`, the two counters, and the files saved in order. -/
structure RunResult where
  trace : List Event
  outcome : Except RunError Unit
  successfulPosts : Nat
  failedPosts : Nat
  savedFiles : List String

/-- `run_automation` (`src/data_entry_bot.py:385-484`): fetch (a failure is
logged and re-raised; the outer handler calls `close_notepad` and
re-raises), launch via the fallback chain (a `False` raises, handled the
same way), then the per-post loop, then `close_notepad` and the report.  A
loop broken by KeyboardInterrupt still falls through to `close_notepad`
and ends without re-raising. -/
def run_automation (env : RunEnv) : RunResult :=
  match fetch_posts_data env.fetch with
  | .error e => ⟨[.fetch, .closeApp], .error (.fetchFailed e), 0, 0, []⟩
  | .ok posts =>
    if (launch_notepad env.launchPrimary env.launchFallbackRaises).1 then
      let loop := run_loop env.items posts 1
      ⟨[.fetch, .launch] ++ loop.trace ++ [.closeApp], .ok (),
       loop.successfulPosts, loop.failedPosts, loop.savedFiles⟩
    else
      ⟨[.fetch, .closeApp], .error .launchFailed, 0, 0, []⟩

/-- Sequencing key: `fetch` before `launch` before the events of item 1,
and within item `i` format, type, save, new-document in that order, all
before item `i + 1`.  Items are 1-based so their keys start at 4.
`closeApp` is handled separately (the trace ends with it), so its key is
never compared. -/
def eventKey : Event → Nat
  | .fetch => 0
  | .launch => 1
  | .format i => 4 * i
  | .typeText i => 4 * i + 1
  | .save i _ => 4 * i + 2
  | .newDocument i => 4 * i + 3
  | .closeApp => 2

/-! ### Auxiliary predicates and concrete environments -/

/-- An iteration environment in which every effectful call succeeds and no
interrupt occurs. -/
def ItemEnv.allOk (e : ItemEnv) : Bool :=
  !e.typeBotcityRaises && !e.save.ctrlSRaises && !e.save.typePathRaises
    && !e.save.enterRaises && e.save.fileExistsAfter && !e.interrupt

/-- The filenames `process_single_post` would construct for a list of
posts starting at loop position `i`. -/
def filenamesFrom : List Post → Nat → List String
  | [], _ => []
  | p :: ps, i => post_filename p i :: filenamesFrom ps (i + 1)

/-- Whether an event is the formatting step of some item. -/
def isFormat : Event → Bool
  | .format _ => true
  | _ => false

/-- Number of formatting events in a trace: how many loop iterations
reached the body. -/
def countFormats (tr : List Event) : Nat := (tr.filter isFormat).length

/-- A fully successful iteration environment. -/
def okItem : ItemEnv := ⟨false, false, ⟨false, false, false, false, true⟩, false⟩

/-- A fully successful iteration environment except that the typing step
fails in both libraries, so the item fails. -/
def typeFailItem : ItemEnv := ⟨true, true, ⟨false, false, false, false, true⟩, false⟩

/-- An iteration environment whose operator interrupt fires. -/
def interruptItem : ItemEnv := ⟨false, false, ⟨false, false, false, false, true⟩, true⟩

/-- Ten posts with ids 1..10, as returned by the JSONPlaceholder API. -/
def tenPosts : List Post :=
  (List.range 10).map fun k => ⟨some ((k : Int) + 1), some "t", some "b", some 1⟩

/-- A run environment where everything succeeds and the API returns
`tenPosts`. -/
def happyEnv : RunEnv := ⟨.ok tenPosts, .returns true, false, fun _ => okItem⟩

/-- A run environment whose fetch hits a connection error. -/
def connFailEnv : RunEnv := ⟨.connectionError, .returns true, false, fun _ => okItem⟩

/-- A run environment whose fetch hits a timeout. -/
def timeoutEnv : RunEnv := ⟨.timeoutError, .returns true, false, fun _ => okItem⟩

/-- A successful-fetch environment in which item 2 fails at the typing
step and the rest succeed. -/
def oneFailEnv : RunEnv :=
  ⟨.ok tenPosts, .returns true, false, fun i => if i = 2 then typeFailItem else okItem⟩

/-- A successful-fetch environment in which the operator interrupts at
item 3. -/
def interruptEnv : RunEnv :=
  ⟨.ok tenPosts, .returns true, false, fun i => if i = 3 then interruptItem else okItem⟩

/-- A save environment in which only the guarded overwrite-confirmation
press raises and the file exists afterwards. -/
def confirmRaiseSave : SaveEnv := ⟨false, false, false, true, true⟩

/-- A post as fetched from the API, with a lower-case title, used to
compare the written content with the fetched fields. -/
def samplePost : Post := ⟨some 1, some "hello world", some "some body text", some 7⟩

end DataEntryBot

namespace DataEntryBot

theorem process_trace_mem_format (e : ItemEnv) (p : Post) (i : Nat) :
    Event.format i ∈ (process_single_post e p i).1 := by
  unfold process_single_post
  repeat' split
  all_goals simp

theorem process_trace_key_bounds (e : ItemEnv) (p : Post) (i : Nat) :
    ∀ ev ∈ (process_single_post e p i).1,
      4 * i ≤ eventKey ev ∧ eventKey ev < 4 * i + 4 ∧ ev ≠ Event.closeApp := by
  intro ev hev
  unfold process_single_post at hev
  repeat' split at hev
  all_goals fin_cases hev <;> refine ⟨?_, ?_, ?_⟩ <;> simp [eventKey]

theorem process_trace_pairwise (e : ItemEnv) (p : Post) (i : Nat) :
    List.Pairwise (fun a b => eventKey a < eventKey b) (process_single_post e p i).1 := by
  unfold process_single_post
  repeat' split
  all_goals simp [List.pairwise_cons, eventKey]

theorem allOk_fields {e : ItemEnv} (h : e.allOk = true) :
    e.typeBotcityRaises = false ∧ e.save.ctrlSRaises = false ∧
    e.save.typePathRaises = false ∧ e.save.enterRaises = false ∧
    e.save.fileExistsAfter = true ∧ e.interrupt = false := by
  simp [ItemEnv.allOk] at h
  tauto

theorem process_allOk (e : ItemEnv) (p : Post) (i : Nat) (h : e.allOk = true) :
    (process_single_post e p i).2.1 = true ∧
    (process_single_post e p i).2.2 = some (post_filename p i) := by
  obtain ⟨h1, h2, h3, h4, h5, h6⟩ := allOk_fields h
  simp [process_single_post, type_text_hybrid, type_text_botcity, save_document,
    h1, h2, h3, h4, h5]
  split <;> simp

end DataEntryBot

namespace DataEntryBot

theorem run_loop_allOk (items : Nat → ItemEnv) (hok : ∀ j, (items j).allOk = true) :
    ∀ (ps : List Post) (i : Nat),
      (run_loop items ps i).savedFiles = filenamesFrom ps i ∧
      (run_loop items ps i).successfulPosts = ps.length ∧
      (run_loop items ps i).failedPosts = 0
  | [], i => by simp [run_loop, filenamesFrom]
  | p :: ps, i => by
    have hintr := (allOk_fields (hok i)).2.2.2.2.2
    have hstep := process_allOk (items i) p i (hok i)
    have ih := run_loop_allOk items hok ps (i + 1)
    simp [run_loop, hintr, hstep.1, hstep.2, filenamesFrom, ih.1, ih.2.1, ih.2.2]

theorem run_loop_counts (items : Nat → ItemEnv)
    (hno : ∀ j, (items j).interrupt = false) :
    ∀ (ps : List Post) (i : Nat),
      (run_loop items ps i).successfulPosts + (run_loop items ps i).failedPosts
        = ps.length
  | [], i => by simp [run_loop]
  | p :: ps, i => by
    have ih := run_loop_counts items hno ps (i + 1)
    cases h : (process_single_post (items i) p i).2.1 <;>
      simp [run_loop, hno i, h] <;> omega

theorem process_countFormats (e : ItemEnv) (p : Post) (i : Nat) :
    countFormats (process_single_post e p i).1 = 1 := by
  unfold process_single_post
  repeat' split
  all_goals simp [countFormats, isFormat]

theorem countFormats_append (a b : List Event) :
    countFormats (a ++ b) = countFormats a + countFormats b := by
  simp [countFormats, List.filter_append]

theorem run_loop_countFormats (items : Nat → ItemEnv)
    (hno : ∀ j, (items j).interrupt = false) :
    ∀ (ps : List Post) (i : Nat),
      countFormats (run_loop items ps i).trace = ps.length
  | [], i => by simp [run_loop, countFormats]
  | p :: ps, i => by
    have ih := run_loop_countFormats items hno ps (i + 1)
    simp only [run_loop, hno i, Bool.false_eq_true, if_false]
    split <;> simp [countFormats_append, ih, process_countFormats] <;> omega

theorem run_loop_key_bounds (items : Nat → ItemEnv) :
    ∀ (ps : List Post) (i : Nat), ∀ ev ∈ (run_loop items ps i).trace,
      4 * i ≤ eventKey ev ∧ eventKey ev < 4 * (i + ps.length) ∧
      ev ≠ Event.closeApp
  | [], i => by simp [run_loop]
  | p :: ps, i => by
    intro ev hev
    by_cases hintr : (items i).interrupt = true
    · simp [run_loop, hintr] at hev
    · simp only [Bool.not_eq_true] at hintr
      simp only [run_loop, hintr, Bool.false_eq_true, if_false] at hev
      have key : ev ∈ (process_single_post (items i) p i).1 ∨
          ev ∈ (run_loop items ps (i + 1)).trace := by
        split at hev <;> exact List.mem_append.mp hev
      rcases key with hl | hr
      · obtain ⟨hb1, hb2, hb3⟩ := process_trace_key_bounds (items i) p i ev hl
        refine ⟨hb1, ?_, hb3⟩
        simp only [List.length_cons]
        omega
      · obtain ⟨hb1, hb2, hb3⟩ := run_loop_key_bounds items ps (i + 1) ev hr
        refine ⟨by omega, ?_, hb3⟩
        simp only [List.length_cons]
        omega

theorem run_loop_pairwise (items : Nat → ItemEnv) :
    ∀ (ps : List Post) (i : Nat),
      List.Pairwise (fun a b => eventKey a < eventKey b) (run_loop items ps i).trace
  | [], i => by simp [run_loop]
  | p :: ps, i => by
    by_cases hintr : (items i).interrupt = true
    · simp [run_loop, hintr]
    · simp only [Bool.not_eq_true] at hintr
      simp only [run_loop, hintr, Bool.false_eq_true, if_false]
      have ih := run_loop_pairwise items ps (i + 1)
      have hstep := process_trace_pairwise (items i) p i
      have hcross : ∀ a ∈ (process_single_post (items i) p i).1,
          ∀ b ∈ (run_loop items ps (i + 1)).trace, eventKey a < eventKey b := by
        intro a ha b hb
        have h1 := process_trace_key_bounds (items i) p i a ha
        have h2 := run_loop_key_bounds items ps (i + 1) b hb
        omega
      split <;> exact List.pairwise_append.mpr ⟨hstep, ih, hcross⟩

end DataEntryBot

namespace DataEntryBot

theorem run_loop_interrupt_bound (items : Nat → ItemEnv) (k : Nat)
    (hk : (items k).interrupt = true) :
    ∀ (ps : List Post) (i : Nat), i ≤ k →
      ∀ ev ∈ (run_loop items ps i).trace, eventKey ev < 4 * k
  | [], i => by simp [run_loop]
  | p :: ps, i => by
    intro hik ev hev
    by_cases hintr : (items i).interrupt = true
    · simp [run_loop, hintr] at hev
    · have hne : i ≠ k := fun h => hintr (h ▸ hk)
      simp only [Bool.not_eq_true] at hintr
      simp only [run_loop, hintr, Bool.false_eq_true, if_false] at hev
      have key : ev ∈ (process_single_post (items i) p i).1 ∨
          ev ∈ (run_loop items ps (i + 1)).trace := by
        split at hev <;> exact List.mem_append.mp hev
      rcases key with hl | hr
      · have hb := process_trace_key_bounds (items i) p i ev hl
        omega
      · exact run_loop_interrupt_bound items k hk ps (i + 1) (by omega) ev hr

theorem run_loop_mem_format (items : Nat → ItemEnv)
    (hno : ∀ j, (items j).interrupt = false) :
    ∀ (ps : List Post) (i k : Nat), i ≤ k → k < i + ps.length →
      Event.format k ∈ (run_loop items ps i).trace
  | [], i, k => by
    intro hik hlt
    simp only [List.length_nil, Nat.add_zero] at hlt
    omega
  | p :: ps, i, k => by
    intro hik hlt
    simp only [run_loop, hno i, Bool.false_eq_true, if_false]
    have mem : Event.format k ∈
        (process_single_post (items i) p i).1 ++ (run_loop items ps (i + 1)).trace := by
      rcases Nat.eq_or_lt_of_le hik with rfl | hik'
      · exact List.mem_append_left _ (process_trace_mem_format (items i) p i)
      · refine List.mem_append_right _ ?_
        refine run_loop_mem_format items hno ps (i + 1) k hik' ?_
        simp only [List.length_cons] at hlt
        omega
    split <;> exact mem

theorem filenamesFrom_of_ids :
    ∀ (ps : List Post) (ids : List Int) (i : Nat),
      ps.map Post.id = ids.map some →
      filenamesFrom ps i = ids.map fun j => "post " ++ toString j ++ ".txt"
  | [], ids, i => by
    cases ids <;> simp [filenamesFrom]
  | p :: ps, ids, i => by
    cases ids with
    | nil => simp
    | cons j js =>
      intro h
      simp only [List.map_cons, List.cons.injEq] at h
      simp only [filenamesFrom, List.map_cons, List.cons.injEq]
      refine ⟨?_, filenamesFrom_of_ids ps js (i + 1) h.2⟩
      simp [post_filename, h.1]

end DataEntryBot

namespace DataEntryBot

/-- C1: in a complete successful run (fetch returns posts with ids 1..10,
the launch succeeds, every per-item step succeeds and no interrupt occurs)
exactly ten files are created, named "post 1.txt" through "post 10.txt",
one per fetched post, and the filename for a post with an id is
"post {id}.txt" built from that id. -/
theorem ten_files_created (env : RunEnv) (posts : List Post)
    (hfetch : env.fetch = .ok posts)
    (hids : posts.map Post.id =
      ([1, 2, 3, 4, 5, 6, 7, 8, 9, 10] : List Int).map some)
    (hlaunch : (launch_notepad env.launchPrimary env.launchFallbackRaises).1 = true)
    (hok : ∀ j, (env.items j).allOk = true) :
    (run_automation env).savedFiles =
      ["post 1.txt", "post 2.txt", "post 3.txt", "post 4.txt", "post 5.txt",
       "post 6.txt", "post 7.txt", "post 8.txt", "post 9.txt", "post 10.txt"] ∧
    (run_automation env).savedFiles.length = 10 ∧
    (run_automation env).savedFiles.Nodup ∧
    ∀ (p : Post) (n : Nat) (j : Int), p.id = some j →
      post_filename p n = "post " ++ toString j ++ ".txt" := by
  have hlen : posts.length = 10 := by
    have h := congrArg List.length hids
    simpa using h
  have htake : posts.take 10 = posts := List.take_of_length_le (by omega)
  have hfiles : (run_automation env).savedFiles = filenamesFrom posts 1 := by
    simp only [run_automation, hfetch, fetch_posts_data, hlaunch, if_true, htake]
    exact (run_loop_allOk env.items hok posts 1).1
  have hnames := filenamesFrom_of_ids posts [1, 2, 3, 4, 5, 6, 7, 8, 9, 10] 1 hids
  have hexp : (run_automation env).savedFiles =
      ["post 1.txt", "post 2.txt", "post 3.txt", "post 4.txt", "post 5.txt",
       "post 6.txt", "post 7.txt", "post 8.txt", "post 9.txt", "post 10.txt"] := by
    rw [hfiles, hnames]
    rfl
  refine ⟨hexp, ?_, ?_, ?_⟩
  · rw [hexp]
    rfl
  · rw [hexp]
    decide
  · intro p n j h
    simp [post_filename, h]

/-- C2: whenever the API fetch fails, the exception is re-raised out of
`run_automation`, no post is processed (no format, save or launch event in
the trace) and no file is saved. -/
theorem fetch_failure_aborts (env : RunEnv) (e : FetchError)
    (h : fetch_posts_data env.fetch = .error e) :
    (run_automation env).outcome = .error (.fetchFailed e) ∧
    Event.launch ∉ (run_automation env).trace ∧
    (∀ i, Event.format i ∉ (run_automation env).trace) ∧
    (∀ i fn, Event.save i fn ∉ (run_automation env).trace) ∧
    (run_automation env).savedFiles = [] := by
  have hred : run_automation env =
      ⟨[Event.fetch, Event.closeApp], .error (.fetchFailed e), 0, 0, []⟩ := by
    simp [run_automation, h]
  rw [hred]
  refine ⟨rfl, ?_, ?_, ?_, rfl⟩ <;> simp

/-- C2 witness: instantiated at a run whose fetch hits a connection
error. -/
theorem fetch_failure_aborts_witness :
    (run_automation connFailEnv).outcome = .error (.fetchFailed .connectionError) ∧
    Event.launch ∉ (run_automation connFailEnv).trace ∧
    (∀ i, Event.format i ∉ (run_automation connFailEnv).trace) ∧
    (∀ i fn, Event.save i fn ∉ (run_automation connFailEnv).trace) ∧
    (run_automation connFailEnv).savedFiles = [] :=
  fetch_failure_aborts connFailEnv .connectionError rfl

/-- C3 counterexample: a fetch timeout is a failure that neither triggers
a fallback nor is counted as a failed item with the loop continuing — the
exception escapes `run_automation` and both counters stay 0, so not every
failure is contained as the claim states. -/
theorem fetch_failure_escapes :
    fetch_posts_data timeoutEnv.fetch = .error .timeoutError ∧
    (run_automation timeoutEnv).outcome ≠ .ok () ∧
    (run_automation timeoutEnv).failedPosts = 0 ∧
    (run_automation timeoutEnv).successfulPosts = 0 := by
  refine ⟨rfl, ?_, rfl, rfl⟩
  intro hcontra
  simp [run_automation, timeoutEnv, fetch_posts_data] at hcontra

/-- C3 amended: failures inside the per-post loop are caught and counted
as failed items while the loop continues through every item and the run
ends normally; fetch failures (network errors, timeouts, malformed JSON)
are instead caught, logged and re-raised, aborting the run without
counting a failed item. -/
theorem loop_failures_contained (env : RunEnv) (posts : List Post)
    (hfetch : env.fetch = .ok posts)
    (hlaunch : (launch_notepad env.launchPrimary env.launchFallbackRaises).1 = true)
    (hno : ∀ j, (env.items j).interrupt = false) :
    (run_automation env).outcome = Except.ok () ∧
    (run_automation env).successfulPosts + (run_automation env).failedPosts
      = (posts.take 10).length ∧
    (∀ k, 1 ≤ k → k ≤ (posts.take 10).length →
      Event.format k ∈ (run_automation env).trace) ∧
    (∀ (env2 : RunEnv) (e : FetchError), fetch_posts_data env2.fetch = .error e →
      (run_automation env2).outcome = .error (.fetchFailed e) ∧
      (run_automation env2).failedPosts = 0) := by
  have hred : run_automation env =
      ⟨[Event.fetch, Event.launch] ++ (run_loop env.items (posts.take 10) 1).trace
        ++ [Event.closeApp],
       Except.ok (), (run_loop env.items (posts.take 10) 1).successfulPosts,
       (run_loop env.items (posts.take 10) 1).failedPosts,
       (run_loop env.items (posts.take 10) 1).savedFiles⟩ := by
    simp [run_automation, hfetch, fetch_posts_data, hlaunch]
  refine ⟨?_, ?_, ?_, ?_⟩
  · rw [hred]
  · rw [hred]
    exact run_loop_counts env.items hno (posts.take 10) 1
  · intro k hk1 hk2
    rw [hred]
    have hmem := run_loop_mem_format env.items hno (posts.take 10) 1 k hk1 (by omega)
    simp only [List.append_assoc, List.mem_append]
    exact Or.inr (Or.inl hmem)
  · intro env2 e he
    constructor <;> simp [run_automation, he]

end DataEntryBot

namespace DataEntryBot

/-- C1 witness: instantiated at a fully successful run over ten posts
with ids 1..10. -/
theorem ten_files_created_witness :
    (run_automation happyEnv).savedFiles =
      ["post 1.txt", "post 2.txt", "post 3.txt", "post 4.txt", "post 5.txt",
       "post 6.txt", "post 7.txt", "post 8.txt", "post 9.txt", "post 10.txt"] ∧
    (run_automation happyEnv).savedFiles.length = 10 ∧
    (run_automation happyEnv).savedFiles.Nodup ∧
    ∀ (p : Post) (n : Nat) (j : Int), p.id = some j →
      post_filename p n = "post " ++ toString j ++ ".txt" :=
  ten_files_created happyEnv tenPosts rfl (by decide) rfl (fun _ => rfl)

/-- C3 witness: instantiated at a run whose item 2 fails at the typing
step while the others succeed. -/
theorem loop_failures_contained_witness :
    (run_automation oneFailEnv).outcome = Except.ok () ∧
    (run_automation oneFailEnv).successfulPosts + (run_automation oneFailEnv).failedPosts
      = (tenPosts.take 10).length ∧
    (∀ k, 1 ≤ k → k ≤ (tenPosts.take 10).length →
      Event.format k ∈ (run_automation oneFailEnv).trace) ∧
    (∀ (env2 : RunEnv) (e : FetchError), fetch_posts_data env2.fetch = .error e →
      (run_automation env2).outcome = .error (.fetchFailed e) ∧
      (run_automation env2).failedPosts = 0) :=
  loop_failures_contained oneFailEnv tenPosts rfl rfl
    (fun j => by by_cases h : j = 2 <;> simp [oneFailEnv, typeFailItem, okItem, h])

/-- C4 counterexample: the file content is not the template wrapping the
fetched title unaltered — for the fetched title "hello world" the written
content carries "Hello World" (Python's `str.title()` is applied). -/
theorem title_altered :
    samplePost.title = some "hello world" ∧
    format_blog_post samplePost ≠
      renderTemplate "1" "hello world" "7" "some body text" ∧
    format_blog_post samplePost =
      renderTemplate "1" "Hello World" "7" "some body text" := by
  refine ⟨rfl, ?_, rfl⟩
  decide

/-- C4 amended: for every post with all fields present, the written
content is the fixed textual template wrapping exactly the post's id, its
fetched title converted to title case by Python's `str.title()`, its
author id (userId), and its fetched body unaltered. -/
theorem content_is_template (i u : Int) (t b : String) :
    format_blog_post ⟨some i, some t, some b, some u⟩ =
      renderTemplate (toString i) (pyTitle t) (toString u) b := rfl

/-- C6: for both application launch and text entry the BotCity method is
tried first, the PyAutoGUI fallback is invoked if and only if the primary
method fails, and the combined operation succeeds exactly when at least
one of the two methods succeeds. -/
theorem fallback_chains (p : ExecOutcome) (f tp tf : Bool) :
    ((launch_notepad p f).2 = true ↔ launch_notepad_botcity p = false) ∧
    (launch_notepad p f).1
      = (launch_notepad_botcity p || launch_notepad_pyautogui f) ∧
    ((type_text_hybrid tp tf).2 = true ↔ type_text_botcity tp = false) ∧
    (type_text_hybrid tp tf).1
      = (type_text_botcity tp || type_text_pyautogui tf) := by
  cases p with
  | raises => cases f <;> cases tp <;> cases tf <;> decide
  | returns b => cases b <;> cases f <;> cases tp <;> cases tf <;> decide

end DataEntryBot

namespace DataEntryBot

/-- C5: `fetch_posts_data` returns exactly the first 10 elements of the
response array in their original order (all of them, in order, when the
array is shorter), and the main loop performs one iteration per returned
element. -/
theorem first_ten_in_order (env : RunEnv) (posts : List Post)
    (hfetch : env.fetch = .ok posts)
    (hlaunch : (launch_notepad env.launchPrimary env.launchFallbackRaises).1 = true)
    (hno : ∀ j, (env.items j).interrupt = false) :
    fetch_posts_data env.fetch = .ok (posts.take 10) ∧
    (posts.take 10).length = min 10 posts.length ∧
    (∀ k, (posts.take 10)[k]? = if k < 10 then posts[k]? else none) ∧
    (posts.length ≤ 10 → posts.take 10 = posts) ∧
    countFormats (run_automation env).trace = (posts.take 10).length := by
  refine ⟨by simp [fetch_posts_data, hfetch], by simp [List.length_take], ?_, ?_, ?_⟩
  · intro k
    by_cases h : k < 10
    · simp [h, List.getElem?_take_of_lt h]
    · simp only [h, if_false]
      apply List.getElem?_eq_none
      have := posts.length_take_le 10
      omega
  · exact fun h => List.take_of_length_le h
  · have hred : run_automation env =
        ⟨[Event.fetch, Event.launch] ++ (run_loop env.items (posts.take 10) 1).trace
          ++ [Event.closeApp],
         Except.ok (), (run_loop env.items (posts.take 10) 1).successfulPosts,
         (run_loop env.items (posts.take 10) 1).failedPosts,
         (run_loop env.items (posts.take 10) 1).savedFiles⟩ := by
      simp [run_automation, hfetch, fetch_posts_data, hlaunch]
    rw [hred]
    have h1 : countFormats ([Event.fetch, Event.launch]
        ++ (run_loop env.items (posts.take 10) 1).trace ++ [Event.closeApp])
        = countFormats (run_loop env.items (posts.take 10) 1).trace := by
      simp [countFormats_append, countFormats, isFormat]
    exact h1.trans (run_loop_countFormats env.items hno (posts.take 10) 1)

/-- C5 witness: instantiated at a fully successful run over ten posts. -/
theorem first_ten_in_order_witness :
    fetch_posts_data happyEnv.fetch = .ok (tenPosts.take 10) ∧
    (tenPosts.take 10).length = min 10 tenPosts.length ∧
    (∀ k, (tenPosts.take 10)[k]? = if k < 10 then tenPosts[k]? else none) ∧
    (tenPosts.length ≤ 10 → tenPosts.take 10 = tenPosts) ∧
    countFormats (run_automation happyEnv).trace = (tenPosts.take 10).length :=
  first_ten_in_order happyEnv tenPosts rfl rfl (fun _ => rfl)

/-- C7: execution is strictly sequential in a single pass — every trace
ends with the close event, starts with the fetch, and is strictly
increasing under the sequencing key, so the fetch precedes all item work
and, per item, formatting precedes typing, typing precedes the save-as,
and all work of an item precedes any work of the next. -/
theorem strictly_sequential (env : RunEnv) :
    ∃ pre, (run_automation env).trace = pre ++ [Event.closeApp] ∧
      Event.closeApp ∉ pre ∧
      pre.head? = some Event.fetch ∧
      List.Pairwise (fun a b => eventKey a < eventKey b) pre := by
  cases henv : fetch_posts_data env.fetch with
  | error e =>
    refine ⟨[Event.fetch], ?_⟩
    simp [run_automation, henv, eventKey]
  | ok posts =>
    by_cases hl : (launch_notepad env.launchPrimary env.launchFallbackRaises).1 = true
    · refine ⟨[Event.fetch, Event.launch] ++ (run_loop env.items posts 1).trace,
        ?_, ?_, ?_, ?_⟩
      · simp [run_automation, henv, hl]
      · intro hmem
        rcases List.mem_append.mp hmem with h | h
        · simp at h
        · exact (run_loop_key_bounds env.items posts 1 _ h).2.2 rfl
      · simp
      · refine List.pairwise_append.mpr
          ⟨?_, run_loop_pairwise env.items posts 1, ?_⟩
        · simp [eventKey]
        · intro a ha b hb
          have hbb := (run_loop_key_bounds env.items posts 1 b hb).1
          rcases List.mem_cons.mp ha with rfl | ha'
          · have h0 : eventKey Event.fetch = 0 := rfl
            omega
          · rcases List.mem_cons.mp ha' with rfl | h0
            · have h1 : eventKey Event.launch = 1 := rfl
              omega
            · simp at h0
    · refine ⟨[Event.fetch], ?_⟩
      simp [run_automation, henv, hl, eventKey]

end DataEntryBot

namespace DataEntryBot

/-- C8: on an operator interrupt at item k no item from k on is
processed and `close_notepad` is still reached (close event in the trace,
normal exit); conversely, without an interrupt the loop processes every
item, i.e. no other cancellation mechanism stops it. -/
theorem interrupt_stops_items (env : RunEnv) (posts : List Post) (k : Nat)
    (hfetch : env.fetch = .ok posts)
    (hlaunch : (launch_notepad env.launchPrimary env.launchFallbackRaises).1 = true)
    (hk : 1 ≤ k)
    (hint : (env.items k).interrupt = true) :
    (∀ i, k ≤ i → Event.format i ∉ (run_automation env).trace) ∧
    Event.closeApp ∈ (run_automation env).trace ∧
    (run_automation env).outcome = Except.ok () ∧
    (∀ (env2 : RunEnv) (posts2 : List Post), env2.fetch = .ok posts2 →
      (launch_notepad env2.launchPrimary env2.launchFallbackRaises).1 = true →
      (∀ j, (env2.items j).interrupt = false) →
      ∀ i, 1 ≤ i → i ≤ (posts2.take 10).length →
        Event.format i ∈ (run_automation env2).trace) := by
  have hred : run_automation env =
      ⟨[Event.fetch, Event.launch] ++ (run_loop env.items (posts.take 10) 1).trace
        ++ [Event.closeApp],
       Except.ok (), (run_loop env.items (posts.take 10) 1).successfulPosts,
       (run_loop env.items (posts.take 10) 1).failedPosts,
       (run_loop env.items (posts.take 10) 1).savedFiles⟩ := by
    simp [run_automation, hfetch, fetch_posts_data, hlaunch]
  refine ⟨?_, ?_, ?_, ?_⟩
  · intro i hki hmem
    rw [hred] at hmem
    simp only [List.append_assoc, List.mem_append, List.mem_cons,
      List.not_mem_nil, or_false] at hmem
    rcases hmem with (h | h) | h | h
    · exact Event.noConfusion h
    · exact Event.noConfusion h
    · have hb := run_loop_interrupt_bound env.items k hint (posts.take 10) 1 hk
        (Event.format i) h
      have hkey : eventKey (Event.format i) = 4 * i := rfl
      omega
    · exact Event.noConfusion h
  · rw [hred]
    simp
  · rw [hred]
  · intro env2 posts2 hfetch2 hlaunch2 hno2 i hi1 hi2
    have hred2 : run_automation env2 =
        ⟨[Event.fetch, Event.launch] ++ (run_loop env2.items (posts2.take 10) 1).trace
          ++ [Event.closeApp],
         Except.ok (), (run_loop env2.items (posts2.take 10) 1).successfulPosts,
         (run_loop env2.items (posts2.take 10) 1).failedPosts,
         (run_loop env2.items (posts2.take 10) 1).savedFiles⟩ := by
      simp [run_automation, hfetch2, fetch_posts_data, hlaunch2]
    rw [hred2]
    have hmem := run_loop_mem_format env2.items hno2 (posts2.take 10) 1 i hi1 (by omega)
    simp only [List.append_assoc, List.mem_append]
    exact Or.inr (Or.inl hmem)

/-- C8 witness: instantiated at a run interrupted at item 3. -/
theorem interrupt_stops_items_witness :
    (∀ i, 3 ≤ i → Event.format i ∉ (run_automation interruptEnv).trace) ∧
    Event.closeApp ∈ (run_automation interruptEnv).trace ∧
    (run_automation interruptEnv).outcome = Except.ok () ∧
    (∀ (env2 : RunEnv) (posts2 : List Post), env2.fetch = .ok posts2 →
      (launch_notepad env2.launchPrimary env2.launchFallbackRaises).1 = true →
      (∀ j, (env2.items j).interrupt = false) →
      ∀ i, 1 ≤ i → i ≤ (posts2.take 10).length →
        Event.format i ∈ (run_automation env2).trace) :=
  interrupt_stops_items interruptEnv tenPosts 3 rfl rfl (by decide) rfl

/-- C9: `format_blog_post` and the filename construction are total over
any post: a missing id, title, body or userId is replaced by "Unknown",
"Untitled", "No content available", "Unknown" respectively, and a post
with no id is saved under the filename built from its 1-based loop
position. -/
theorem missing_fields_defaulted (p : Post) (n : Nat) :
    format_blog_post p = renderTemplate
      (match p.id with
        | some i => toString i
        | none => "Unknown")
      (pyTitle (p.title.getD "Untitled"))
      (match p.userId with
        | some i => toString i
        | none => "Unknown")
      (p.body.getD "No content available") ∧
    post_filename { p with id := none } n = "post " ++ toString n ++ ".txt" :=
  ⟨rfl, rfl⟩

/-- C10 counterexample: when the guarded overwrite-confirmation press
raises but the file exists, `save_document` still returns `True`, so it is
not the case that any raising step yields `False`. -/
theorem save_true_despite_raise :
    confirmRaiseSave.confirmEnterRaises = true ∧
    save_document confirmRaiseSave = true := ⟨rfl, rfl⟩

/-- C10 amended: `save_document` returns `True` exactly when no step
before the guarded overwrite-confirmation press raises and the target file
exists afterwards; the guarded press never affects the result; in
particular success is never reported for an absent file. -/
theorem save_reports_existence (env : SaveEnv) :
    (save_document env = true ↔
      env.ctrlSRaises = false ∧ env.typePathRaises = false ∧
      env.enterRaises = false ∧ env.fileExistsAfter = true) ∧
    ∀ c, save_document ⟨env.ctrlSRaises, env.typePathRaises, env.enterRaises, c,
        env.fileExistsAfter⟩ = save_document env := by
  obtain ⟨a, b, c, d, e⟩ := env
  refine ⟨?_, ?_⟩
  · cases a <;> cases b <;> cases c <;> cases d <;> cases e <;> decide
  · intro c'
    cases a <;> cases b <;> cases c <;> rfl

end DataEntryBot
